import Mathlib

/-!
Verification of moveit_core ompl_interface ModelBasedPlanningContext
(src/moveit_core/ompl_interface/src/parameterization/model_based_planning_context.cpp).

The context object is shallowly embedded as a Lean structure; each member
function is a Lean function on that structure.  External collaborators
(boost, OMPL, kinematic_constraints, the robot model) are abstracted to the
interface surface the source file uses; wherever a collaborator defined in
this repository but outside src decides a behaviour, the definition carries a
doc comment starting with: Modelled from the spec.

Doubles are modelled as rationals.  IEEE division by a zero divisor produces
a non-finite value whose later integer conversion is undefined behaviour in
C++, so such a division is modelled as a failure (Option none).
-/

/-- Abstract robot state.  The kinematic state type is an external
collaborator; only satisfaction predicates over it matter here. -/
abbrev RobotState := Nat

/-- One atomic kinematic constraint, abstracted to its satisfaction
predicate on robot states. -/
abbrev Constraint := RobotState → Bool

/-- A moveit_msgs Constraints message, abstracted to the list of atomic
constraints it carries. -/
abbrev Constraints := List Constraint

/-- Modelled from the spec: kc KinematicConstraintSet (the
kinematic_constraints package is not under src).  A constraint-set object
holds the constraints added to it; it is empty when no constraint was
added. -/
abbrev KinematicConstraintSet := List Constraint

/-- Modelled from the spec: kc mergeConstraints (kinematic_constraints/utils,
not under src) merges one goal-constraint message with the path-constraint
message into a single combined constraint message. -/
def mergeConstraints (a b : Constraints) : Constraints := a ++ b

/-- Modelled from the spec: a constraint set is satisfied on a state when
every constraint in the set holds there. -/
def ksetSatisfied (k : KinematicConstraintSet) (s : RobotState) : Bool :=
  k.all (fun c => c s)

/-- The ompl goal installed on the problem definition.  constructGoal builds
either a single ConstrainedGoalSampler (one goal-constraint set) or a
GoalSampleableRegionMux over one sampler per set. -/
inductive GoalOb where
  | sampler (kset : KinematicConstraintSet)
  | mux (regions : List KinematicConstraintSet)

/-- Modelled from the spec: satisfaction of the installed goal.  A single
sampler region is satisfied when its constraint set holds; the mux union
region is satisfied when at least one member region is satisfied (any-of
semantics, detail/goal_union.h is not under src). -/
def GoalOb.isSatisfied : GoalOb → RobotState → Bool
  | .sampler k, s => ksetSatisfied k s
  | .mux rs, s => rs.any (fun k => ksetSatisfied k s)

/-- Modelled from the spec: the goal type test done by solve.
ConstrainedGoalSampler (detail/constrained_goal_sampler.h, not under src)
is a GoalLazySamples goal with a background sampling thread, so it has the
lazy-samples type; the mux union is a plain sampleable region without it. -/
def GoalOb.hasLazySamplesType : GoalOb → Bool
  | .sampler _ => true
  | .mux _ => false

/-- The ompl geometric path held by the simple setup, abstracted to its
state count and its geometric length, the two quantities the source
reads. -/
structure PathGeometric where
  states : Nat
  pathLen : ℚ

/-- The moveit_msgs MoveItErrorCodes values the source file writes. -/
inductive MoveItErrorCodes where
  | SUCCESS
  | FAILURE
  | INVALID_GOAL_CONSTRAINTS
deriving DecidableEq, Repr

/-- The ModelBasedPlanningContext state: the member fields of the C++ class
that the verified member functions read or write.  Logging sinks record the
ROS_INFO / ROS_WARN / ROS_ERROR calls.  Wall-clock timing and the benchmark
member are not modelled. -/
structure ModelBasedPlanningContext where
  name_ : String
  max_velocity_ : ℚ
  max_acceleration_ : ℚ
  max_planning_threads_ : Nat
  max_solution_segment_length_ : ℚ
  projection_evaluator_ : Option String
  plannerAllocator_ : Option (String × List (String × String))
  spaceParams_ : List (String × String)
  path_constraints_ : Option KinematicConstraintSet
  goal_constraints_ : List KinematicConstraintSet
  problemGoal_ : Option GoalOb
  planner_ : Bool
  startStates_ : List RobotState
  solutionPath_ : Option PathGeometric
  infoLog_ : List String
  warnLog_ : List String
  errorLog_ : List String

/-- A flat string-keyed configuration map (std::map with unique keys),
modelled as an association list with distinct keys. -/
abbrev Cfg := List (String × String)

/-- The cfg.find(key) lookup of std::map. -/
def cfgFind (cfg : Cfg) (key : String) : Option String :=
  (cfg.find? (fun p => p.1 == key)).map Prod.snd

/-- The cfg.erase(it) call after a successful find: with unique keys,
removing the found entry removes every entry holding that key. -/
def cfgErase (cfg : Cfg) (key : String) : Cfg :=
  cfg.filter (fun p => !(p.1 == key))

/-- The boost trim_copy whitespace trim, written over the character list so
that it evaluates by plain reduction. -/
def trim_copy (s : String) : String :=
  ⟨(((s.data.dropWhile Char.isWhitespace).reverse.dropWhile Char.isWhitespace).reverse)⟩

/-- setProjectionEvaluator (source lines 57 to 67): the state space is
always configured after construction, so the null-space early return is
unreachable; evaluator resolution is a collaborator call, so the model
records the requested evaluator name as the default projection. -/
def setProjectionEvaluator (st : ModelBasedPlanningContext) (peval : String) :
    ModelBasedPlanningContext :=
  { st with projection_evaluator_ := some peval }

/-- Stage of useConfig for the projection_evaluator key (source lines
96 to 101). -/
def stagePE (st : ModelBasedPlanningContext) (cfg : Cfg) :
    ModelBasedPlanningContext × Cfg :=
  match cfgFind cfg "projection_evaluator" with
  | some v => (setProjectionEvaluator st (trim_copy v), cfgErase cfg "projection_evaluator")
  | none => (st, cfg)

/-- Stage of useConfig for the max_velocity key (source lines 103 to 116).
The boost lexical_cast to double is passed in as a function; a cast failure
throws, so the assignment is skipped and the catch block logs an error. -/
def stageMV (lexical_cast_double : String → Option ℚ)
    (st : ModelBasedPlanningContext) (cfg : Cfg) :
    ModelBasedPlanningContext × Cfg :=
  match cfgFind cfg "max_velocity" with
  | some v =>
    (match lexical_cast_double (trim_copy v) with
     | some d => { st with max_velocity_ := d,
                           infoLog_ := st.infoLog_ ++ ["Maximum velocity set"] }
     | none => { st with errorLog_ := st.errorLog_ ++ ["Unable to parse maximum velocity"] },
     cfgErase cfg "max_velocity")
  | none => (st, cfg)

/-- Stage of useConfig for the max_acceleration key (source lines 118 to
131).  The source assigns the parsed value to the max_velocity_ member
(line 123), not to max_acceleration_, even though the log message speaks of
the maximum acceleration; the model reproduces that assignment verbatim. -/
def stageMA (lexical_cast_double : String → Option ℚ)
    (st : ModelBasedPlanningContext) (cfg : Cfg) :
    ModelBasedPlanningContext × Cfg :=
  match cfgFind cfg "max_acceleration" with
  | some v =>
    (match lexical_cast_double (trim_copy v) with
     | some d => { st with max_velocity_ := d,
                           infoLog_ := st.infoLog_ ++ ["Maximum acceleration set"] }
     | none => { st with errorLog_ := st.errorLog_ ++ ["Unable to parse maximum acceleration"] },
     cfgErase cfg "max_acceleration")
  | none => (st, cfg)

/-- Stage of useConfig for the type key (source lines 136 to 147): absent
type logs a warning and leaves the planner allocator untouched; a present
type is erased from the residual map and captured, with that residual, in
the deferred planner-allocation recipe. -/
def stageType (st : ModelBasedPlanningContext) (cfg : Cfg) :
    ModelBasedPlanningContext × Cfg :=
  match cfgFind cfg "type" with
  | none =>
    ({ st with warnLog_ := st.warnLog_ ++ ["Attribute type not specified in planner configuration"] },
     cfg)
  | some ty =>
    ({ st with plannerAllocator_ := some (ty, cfgErase cfg "type"),
               infoLog_ := st.infoLog_ ++ ["Planner configuration will use planner " ++ ty] },
     cfgErase cfg "type")

/-- useConfig (source lines 89 to 152): early return on an empty map; then
the projection_evaluator, max_velocity and max_acceleration keys are
extracted in order; an empty residual returns before the type check; then
the type key is handled and the remaining residual is applied to the space
information parameters. -/
def useConfig (lexical_cast_double : String → Option ℚ)
    (st : ModelBasedPlanningContext) (config : Cfg) : ModelBasedPlanningContext :=
  if config.isEmpty then st
  else
    let s1 := stagePE st config
    let s2 := stageMV lexical_cast_double s1.1 s1.2
    let s3 := stageMA lexical_cast_double s2.1 s2.2
    if s3.2.isEmpty then s3.1
    else
      let s4 := stageType s3.1 s3.2
      { s4.1 with spaceParams_ := s4.2 }

/-- IEEE double division as used on line 174: a zero divisor yields a
non-finite value whose conversion to size_t is undefined behaviour, modelled
as a failure. -/
def fdiv (a b : ℚ) : Option ℚ :=
  if b = 0 then none else some (a / b)

/-- interpolateSolution (source lines 169 to 176): when a solution path
exists, the target state count is floor(0.5 + length / max segment length)
and the path is redensified to that count; pg.interpolate is an external
ompl call, modelled as storing the requested count. -/
def interpolateSolution (st : ModelBasedPlanningContext) :
    Option ModelBasedPlanningContext :=
  match st.solutionPath_ with
  | none => some st
  | some pg =>
    match fdiv pg.pathLen st.max_solution_segment_length_ with
    | none => none
    | some q =>
      some { st with solutionPath_ := some { pg with states := (⌊(1 : ℚ)/2 + q⌋).toNat } }

/-- constructGoal (source lines 235 to 256): one ConstrainedGoalSampler is
built per stored goal-constraint set (the constraint-sampler build is a
collaborator call and never prevents the region from being pushed); with no
region an error is logged and the null goal pointer is returned, one region
is returned directly, and several regions are wrapped in the mux union. -/
def constructGoal (st : ModelBasedPlanningContext) :
    ModelBasedPlanningContext × Option GoalOb :=
  match st.goal_constraints_ with
  | [] =>
    ({ st with errorLog_ := st.errorLog_ ++ ["Unable to construct goal representation"] }, none)
  | [k] => (st, some (GoalOb.sampler k))
  | ks => (st, some (GoalOb.mux ks))

/-- clear (source lines 270 to 277): the simple setup is cleared (dropping
any stored solution path), start states are cleared, the goal is set to the
null pointer, and the path and goal constraint objects are released. -/
def clear (st : ModelBasedPlanningContext) : ModelBasedPlanningContext :=
  { st with
      solutionPath_ := none
      startStates_ := []
      problemGoal_ := none
      path_constraints_ := none
      goal_constraints_ := [] }

/-- setPlanningConstraints (source lines 279 to 312): the stored
goal-constraint list is cleared and rebuilt by merging each goal message
with the path message, keeping only non-empty sets; an empty result warns,
writes INVALID_GOAL_CONSTRAINTS through the error pointer when one was
passed, and returns false; otherwise the path-constraint object is rebuilt
from the path message, the goal is constructed and installed on the problem,
and the return value is the non-nullness of that goal.  The error pointer
content is modelled as an Option value threaded through the call. -/
def setPlanningConstraints (st : ModelBasedPlanningContext)
    (goal_constraints : List Constraints) (path_constraints : Constraints)
    (error : Option MoveItErrorCodes) :
    ModelBasedPlanningContext × Bool × Option MoveItErrorCodes :=
  let ksets := (goal_constraints.map
      (fun gc => mergeConstraints gc path_constraints)).filter (fun k => !k.isEmpty)
  let st1 := { st with goal_constraints_ := ksets }
  if ksets.isEmpty then
    let st2 := { st1 with warnLog_ := st1.warnLog_ ++ ["No goal constraints specified"] }
    (st2, false, error.map (fun _ => MoveItErrorCodes.INVALID_GOAL_CONSTRAINTS))
  else
    let st2 := { st1 with path_constraints_ := some path_constraints }
    let cg := constructGoal st2
    let st3 := { cg.1 with problemGoal_ := cg.2 }
    (st3, cg.2.isSome, error)

/-- Events emitted by one solve invocation, in program order: clearing the
solution paths stored on the goal, clearing the planner, starting and
stopping lazy goal sampling, repairing invalid input states, one sequential
ompl solve, or one parallel-plan round with its timeout and planner count. -/
inductive Ev where
  | clearSolutionPaths
  | plannerClear
  | startSampling
  | fixInputStates
  | solveOnce (timeout : ℚ)
  | parRound (timeout : ℚ) (planners : Nat)
  | stopSampling
deriving DecidableEq, Repr

/-- The solveOnce and parRound events are the planning calls proper; all
other events are bookkeeping around them. -/
def Ev.isSolve : Ev → Bool
  | .solveOnce _ => true
  | .parRound _ _ => true
  | _ => false

/-- The dispatch policy of solve (source lines 349 to 405), parameterised by
an oracle giving the boolean outcome of the i-th underlying planning call of
this invocation: one sequential solve when count is at most one; one
parallel round of count planners when count fits under the thread limit;
otherwise count div threads full rounds of threads planners each, every one
with the undivided timeout and its result ANDed into the running result
(initialised to true), followed by one round of count mod threads planners
exactly when that remainder is non-zero. -/
def solveDispatch (oracle : Nat → Bool) (timeout : ℚ) (count threads : Nat) :
    Bool × List Ev :=
  if count ≤ 1 then
    (oracle 0, [Ev.solveOnce timeout])
  else if count ≤ threads then
    (oracle 0, [Ev.parRound timeout count])
  else
    let n := count / threads
    let fullRes := (List.range n).foldl (fun acc i => acc && oracle i) true
    let fullEvs := List.replicate n (Ev.parRound timeout threads)
    let m := count % threads
    if m ≠ 0 then (fullRes && oracle n, fullEvs ++ [Ev.parRound timeout m])
    else (fullRes, fullEvs)

/-- solve (source lines 331 to 415): the first statement dereferences the
goal held by the simple setup with no null guard, so a null goal is an
undefined dereference, modelled as a failure (none).  Otherwise the solution
paths on the goal are cleared, the planner is cleared when one exists, lazy
goal sampling is started when the goal has the lazy-samples type, invalid
input states are repaired, the dispatch policy runs, and lazy sampling is
stopped on the same condition before returning the dispatch result.
Wall-clock time bookkeeping is not modelled. -/
def solve (st : ModelBasedPlanningContext) (oracle : Nat → Bool)
    (timeout : ℚ) (count : Nat) :
    Option (ModelBasedPlanningContext × Bool × List Ev) :=
  match st.problemGoal_ with
  | none => none
  | some g =>
    let gls := GoalOb.hasLazySamplesType g
    let rc := solveDispatch oracle timeout count st.max_planning_threads_
    some (st, rc.1,
      Ev.clearSolutionPaths ::
        ((if st.planner_ then [Ev.plannerClear] else []) ++
         (if gls then [Ev.startSampling] else []) ++
         (Ev.fixInputStates :: rc.2) ++
         (if gls then [Ev.stopSampling] else [])))

/-- A concrete lexical cast for the concrete evaluations: it parses the one
literal 2.0 and fails on every other string. -/
def castW : String → Option ℚ := fun s => if s = "2.0" then some (2 : ℚ) else none

/-- A concrete context for the concrete evaluations: velocity limit 1,
acceleration limit 0, two planning threads, zero maximum segment length, a
stored two-state solution path of length 1, and everything else unset. -/
def ctxW : ModelBasedPlanningContext where
  name_ := "arm"
  max_velocity_ := 1
  max_acceleration_ := 0
  max_planning_threads_ := 2
  max_solution_segment_length_ := 0
  projection_evaluator_ := none
  plannerAllocator_ := none
  spaceParams_ := []
  path_constraints_ := none
  goal_constraints_ := []
  problemGoal_ := none
  planner_ := false
  startStates_ := []
  solutionPath_ := some { states := 2, pathLen := 1 }
  infoLog_ := []
  warnLog_ := []
  errorLog_ := []

/-- Claim C1: evaluation of the code at the failing input.  With stored
max_velocity_ = 1 and max_acceleration_ = 0, a configuration holding only
the key max_acceleration with value 2.0 makes useConfig overwrite
max_velocity_ with 2 and leave max_acceleration_ at 0: the max_acceleration
key does not set its own stored field, so the two keys are not independent
in the code as written. -/
theorem C1_useConfig_acceleration_writes_velocity :
    (useConfig castW ctxW [("max_acceleration", "2.0")]).max_velocity_ = 2
    ∧ (useConfig castW ctxW [("max_acceleration", "2.0")]).max_acceleration_ = 0 := by
  constructor <;> rfl

/-- Claim C2: evaluation of the code at the failing input.  With a stored
solution path of positive length and max_solution_segment_length_ = 0,
interpolateSolution computes the target state count as the path length
divided by zero, with no guard; the division yields a non-finite double
whose size_t conversion is undefined, modelled as the failing outcome. -/
theorem C2_interpolateSolution_divide_by_zero :
    interpolateSolution ctxW = none := by rfl

/-- Claim C6: evaluation of the code at the failing input.  The map holds an
unparsable max_velocity together with a parsable max_acceleration; useConfig
logs the velocity parse error and the prior value survives that branch, yet
the stored max_velocity_ still changes from 1 to 2 because the
max_acceleration branch writes the velocity field. -/
theorem C6_useConfig_unparsable_velocity_overwritten :
    (useConfig castW ctxW [("max_acceleration", "2.0"), ("max_velocity", "abc")]).errorLog_
        = ["Unable to parse maximum velocity"]
    ∧ (useConfig castW ctxW [("max_acceleration", "2.0"), ("max_velocity", "abc")]).max_velocity_
        = 2 := by
  constructor <;> rfl

/-- Claim C5 counterexample: a map holding only the max_velocity key has no
type key, yet after useConfig no warning has been recorded, because the
residual map is empty once max_velocity is extracted and useConfig returns
before the type check; the claim requires a warning for every map without
type. -/
theorem C5_no_type_no_warning_counterexample :
    cfgFind [("max_velocity", "2.0")] "type" = none
    ∧ ctxW.warnLog_ = []
    ∧ (useConfig castW ctxW [("max_velocity", "2.0")]).warnLog_ = [] := by
  refine ⟨rfl, rfl, rfl⟩

/-- Absence of a key characterised over the entries of the map. -/
theorem cfgFind_none_iff (cfg : Cfg) (k : String) :
    cfgFind cfg k = none ↔ ∀ p ∈ cfg, ¬ p.1 = k := by
  simp [cfgFind, List.find?_eq_none]

/-- Erasing an absent key leaves the map unchanged. -/
theorem cfgErase_none (cfg : Cfg) (k : String) (h : cfgFind cfg k = none) :
    cfgErase cfg k = cfg := by
  rw [cfgFind_none_iff] at h
  apply List.filter_eq_self.mpr
  intro p hp
  simp [h p hp]

/-- Erasing any key preserves the absence of another key. -/
theorem cfgFind_erase_none (cfg : Cfg) (k k2 : String) (h : cfgFind cfg k = none) :
    cfgFind (cfgErase cfg k2) k = none := by
  rw [cfgFind_none_iff] at h ⊢
  intro p hp
  exact h p (List.mem_of_mem_filter hp)

/-- The projection-evaluator stage never touches the planner allocator, the
warning log, the velocity and acceleration fields or the error log, and its
residual map is the input with the projection_evaluator key erased. -/
theorem stagePE_spec (st : ModelBasedPlanningContext) (cfg : Cfg) :
    (stagePE st cfg).1.plannerAllocator_ = st.plannerAllocator_
    ∧ (stagePE st cfg).1.warnLog_ = st.warnLog_
    ∧ (stagePE st cfg).1.max_velocity_ = st.max_velocity_
    ∧ (stagePE st cfg).1.max_acceleration_ = st.max_acceleration_
    ∧ (stagePE st cfg).2 = cfgErase cfg "projection_evaluator" := by
  cases h : cfgFind cfg "projection_evaluator" with
  | none => simp [stagePE, h, cfgErase_none cfg _ h]
  | some v => simp [stagePE, h, setProjectionEvaluator]

/-- The max_velocity stage never touches the planner allocator or the
warning log, and its residual map is the input with the max_velocity key
erased. -/
theorem stageMV_spec (lex : String → Option ℚ)
    (st : ModelBasedPlanningContext) (cfg : Cfg) :
    (stageMV lex st cfg).1.plannerAllocator_ = st.plannerAllocator_
    ∧ (stageMV lex st cfg).1.warnLog_ = st.warnLog_
    ∧ (stageMV lex st cfg).2 = cfgErase cfg "max_velocity" := by
  cases h : cfgFind cfg "max_velocity" with
  | none => simp [stageMV, h, cfgErase_none cfg _ h]
  | some v =>
    cases hp : lex (trim_copy v) with
    | none => simp [stageMV, h, hp]
    | some d => simp [stageMV, h, hp]

/-- The max_acceleration stage never touches the planner allocator or the
warning log, and its residual map is the input with the max_acceleration
key erased. -/
theorem stageMA_spec (lex : String → Option ℚ)
    (st : ModelBasedPlanningContext) (cfg : Cfg) :
    (stageMA lex st cfg).1.plannerAllocator_ = st.plannerAllocator_
    ∧ (stageMA lex st cfg).1.warnLog_ = st.warnLog_
    ∧ (stageMA lex st cfg).2 = cfgErase cfg "max_acceleration" := by
  cases h : cfgFind cfg "max_acceleration" with
  | none => simp [stageMA, h, cfgErase_none cfg _ h]
  | some v =>
    cases hp : lex (trim_copy v) with
    | none => simp [stageMA, h, hp]
    | some d => simp [stageMA, h, hp]

/-- When the type key is absent, the type stage records exactly the
missing-type warning and leaves the planner allocator untouched. -/
theorem stageType_none_spec (st : ModelBasedPlanningContext) (cfg : Cfg)
    (h : cfgFind cfg "type" = none) :
    (stageType st cfg).1.plannerAllocator_ = st.plannerAllocator_
    ∧ (stageType st cfg).1.warnLog_
        = st.warnLog_ ++ ["Attribute type not specified in planner configuration"] := by
  simp [stageType, h]

/-- Claim C5 amended: for any configuration map without the type key, the
planner-allocation recipe is unchanged (so an unset recipe remains unset),
and the missing-type warning is recorded exactly when the residual map,
after the projection_evaluator, max_velocity and max_acceleration keys are
removed, is non-empty; a map whose residual is empty (the empty map
included) returns early without recording the warning. -/
theorem C5_useConfig_no_type_amended (lex : String → Option ℚ)
    (st : ModelBasedPlanningContext) (cfg : Cfg)
    (h : cfgFind cfg "type" = none) :
    (useConfig lex st cfg).plannerAllocator_ = st.plannerAllocator_
    ∧ (useConfig lex st cfg).warnLog_ =
        (if (cfgErase (cfgErase (cfgErase cfg "projection_evaluator") "max_velocity")
              "max_acceleration").isEmpty
         then st.warnLog_
         else st.warnLog_ ++ ["Attribute type not specified in planner configuration"]) := by
  by_cases hempty : cfg.isEmpty
  · have hnil : cfg = [] := List.isEmpty_iff.mp hempty
    subst hnil
    simp [useConfig, cfgErase]
  · obtain ⟨hA1, hW1, _, _, hC1⟩ := stagePE_spec st cfg
    obtain ⟨hA2, hW2, hC2⟩ := stageMV_spec lex (stagePE st cfg).1 (stagePE st cfg).2
    obtain ⟨hA3, hW3, hC3⟩ :=
      stageMA_spec lex (stageMV lex (stagePE st cfg).1 (stagePE st cfg).2).1
        (stageMV lex (stagePE st cfg).1 (stagePE st cfg).2).2
    have hR : (stageMA lex (stageMV lex (stagePE st cfg).1 (stagePE st cfg).2).1
        (stageMV lex (stagePE st cfg).1 (stagePE st cfg).2).2).2
        = cfgErase (cfgErase (cfgErase cfg "projection_evaluator") "max_velocity")
            "max_acceleration" := by
      rw [hC3, hC2, hC1]
    have htype3 : cfgFind (stageMA lex (stageMV lex (stagePE st cfg).1 (stagePE st cfg).2).1
        (stageMV lex (stagePE st cfg).1 (stagePE st cfg).2).2).2 "type" = none := by
      rw [hR]
      exact cfgFind_erase_none _ _ _ (cfgFind_erase_none _ _ _ (cfgFind_erase_none _ _ _ h))
    obtain ⟨hA4, hW4⟩ := stageType_none_spec
      (stageMA lex (stageMV lex (stagePE st cfg).1 (stagePE st cfg).2).1
        (stageMV lex (stagePE st cfg).1 (stagePE st cfg).2).2).1
      (stageMA lex (stageMV lex (stagePE st cfg).1 (stagePE st cfg).2).1
        (stageMV lex (stagePE st cfg).1 (stagePE st cfg).2).2).2 htype3
    rw [useConfig, if_neg hempty]
    by_cases hres : (stageMA lex (stageMV lex (stagePE st cfg).1 (stagePE st cfg).2).1
        (stageMV lex (stagePE st cfg).1 (stagePE st cfg).2).2).2.isEmpty
    · rw [if_pos hres]
      rw [hR] at hres
      rw [if_pos hres]
      exact ⟨hA3.trans (hA2.trans hA1), hW3.trans (hW2.trans hW1)⟩
    · rw [if_neg hres]
      rw [hR] at hres
      rw [if_neg hres]
      constructor
      · exact hA4.trans (hA3.trans (hA2.trans hA1))
      · rw [hW4, hW3, hW2, hW1]

/-- Claim C5 witness: the amended theorem applied to a concrete map holding
one planner-specific key and no type key; the residual is non-empty, so the
warning is recorded and the unset recipe stays unset. -/
theorem C5_useConfig_no_type_amended_witness :
    (useConfig castW ctxW [("range", "0.5")]).plannerAllocator_ = ctxW.plannerAllocator_
    ∧ (useConfig castW ctxW [("range", "0.5")]).warnLog_ =
        (if (cfgErase (cfgErase (cfgErase [("range", "0.5")] "projection_evaluator")
              "max_velocity") "max_acceleration").isEmpty
         then ctxW.warnLog_
         else ctxW.warnLog_ ++ ["Attribute type not specified in planner configuration"]) :=
  C5_useConfig_no_type_amended castW ctxW [("range", "0.5")] rfl

/-- Claim C4: when every goal set normalises to empty after merging with
the path constraints (in particular when the goal list itself is empty),
setPlanningConstraints returns false, writes INVALID_GOAL_CONSTRAINTS
through the error output exactly when one was provided, and leaves both the
stored path constraints and the goal installed on the problem unchanged. -/
theorem C4_setPlanningConstraints_invalid_goal (st : ModelBasedPlanningContext)
    (gcs : List Constraints) (pcs : Constraints) (error : Option MoveItErrorCodes)
    (h : ∀ gc ∈ gcs, (mergeConstraints gc pcs).isEmpty = true) :
    (setPlanningConstraints st gcs pcs error).2.1 = false
    ∧ (setPlanningConstraints st gcs pcs error).2.2
        = error.map (fun _ => MoveItErrorCodes.INVALID_GOAL_CONSTRAINTS)
    ∧ (setPlanningConstraints st gcs pcs error).1.path_constraints_ = st.path_constraints_
    ∧ (setPlanningConstraints st gcs pcs error).1.problemGoal_ = st.problemGoal_ := by
  have hk : (gcs.map (fun gc => mergeConstraints gc pcs)).filter (fun k => !k.isEmpty)
      = [] := by
    rw [List.filter_eq_nil_iff]
    intro k hkm
    rcases List.mem_map.mp hkm with ⟨gc, hgc, rfl⟩
    simp [h gc hgc]
  simp [setPlanningConstraints, hk]

/-- Claim C4 witness: a concrete call whose single goal message merges to
the empty set, with an error output provided; the call fails with
INVALID_GOAL_CONSTRAINTS and the prior path constraints and problem goal
survive. -/
theorem C4_setPlanningConstraints_invalid_goal_witness :
    (∀ gc ∈ ([[]] : List Constraints), (mergeConstraints gc []).isEmpty = true)
    ∧ ((setPlanningConstraints ctxW [[]] [] (some MoveItErrorCodes.SUCCESS)).2.1 = false
       ∧ (setPlanningConstraints ctxW [[]] [] (some MoveItErrorCodes.SUCCESS)).2.2
           = (some MoveItErrorCodes.SUCCESS).map
               (fun _ => MoveItErrorCodes.INVALID_GOAL_CONSTRAINTS)
       ∧ (setPlanningConstraints ctxW [[]] [] (some MoveItErrorCodes.SUCCESS)).1.path_constraints_
           = ctxW.path_constraints_
       ∧ (setPlanningConstraints ctxW [[]] [] (some MoveItErrorCodes.SUCCESS)).1.problemGoal_
           = ctxW.problemGoal_) :=
  ⟨by decide, C4_setPlanningConstraints_invalid_goal ctxW [[]] []
      (some MoveItErrorCodes.SUCCESS) (by decide)⟩

/-- A non-empty stored goal-constraint list always yields a non-null goal:
constructGoal pushes one sampler per set unconditionally. -/
theorem constructGoal_isSome_of_ne_nil (st : ModelBasedPlanningContext)
    (h : st.goal_constraints_ ≠ []) : (constructGoal st).2.isSome = true := by
  match hm : st.goal_constraints_ with
  | [] => exact absurd hm h
  | [k] => simp [constructGoal, hm]
  | k1 :: k2 :: rest => simp [constructGoal, hm]

/-- Claim C10: every setPlanningConstraints call that returns false leaves
the stored goal-constraint list empty — the list is cleared and rebuilt
before validation, so a previously installed non-empty list is destroyed by
the failing call — while the stored path constraints and the goal installed
on the problem keep their prior values. -/
theorem C10_setPlanningConstraints_failure_clears (st : ModelBasedPlanningContext)
    (gcs : List Constraints) (pcs : Constraints) (error : Option MoveItErrorCodes)
    (h : (setPlanningConstraints st gcs pcs error).2.1 = false) :
    (setPlanningConstraints st gcs pcs error).1.goal_constraints_ = []
    ∧ (setPlanningConstraints st gcs pcs error).1.path_constraints_ = st.path_constraints_
    ∧ (setPlanningConstraints st gcs pcs error).1.problemGoal_ = st.problemGoal_ := by
  rcases hm : (gcs.map (fun gc => mergeConstraints gc pcs)).filter (fun k => !k.isEmpty)
    with _ | ⟨k, rest⟩
  · simp [setPlanningConstraints, hm]
  · exfalso
    cases rest with
    | nil => simp [setPlanningConstraints, hm, constructGoal] at h
    | cons k2 rest2 => simp [setPlanningConstraints, hm, constructGoal] at h

/-- A concrete constraint that always holds. -/
def cA : Constraint := fun _ => true

/-- A concrete constraint satisfied exactly on state 0. -/
def cZ : Constraint := fun s => s = 0

/-- A concrete context holding a previously installed non-empty
goal-constraint list and the goal built from it. -/
def ctx10 : ModelBasedPlanningContext :=
  { ctxW with goal_constraints_ := [[cA]], problemGoal_ := some (GoalOb.sampler [cA]) }

/-- Claim C10 witness: a concrete failing call on a context whose prior
goal-constraint list is non-empty; the call returns false, the list is left
empty, and the path constraints and problem goal keep their prior values. -/
theorem C10_setPlanningConstraints_failure_clears_witness :
    (setPlanningConstraints ctx10 [] [] none).2.1 = false
    ∧ ((setPlanningConstraints ctx10 [] [] none).1.goal_constraints_ = []
       ∧ (setPlanningConstraints ctx10 [] [] none).1.path_constraints_
           = ctx10.path_constraints_
       ∧ (setPlanningConstraints ctx10 [] [] none).1.problemGoal_ = ctx10.problemGoal_) :=
  ⟨rfl, C10_setPlanningConstraints_failure_clears ctx10 [] [] none rfl⟩

/-- Claim C7: constructGoal over the stored goal-constraint sets returns
the null goal when zero regions were built, the single region itself when
exactly one was built, and the mux union over all regions — satisfied
exactly when at least one member region is satisfied — when more than one
was built. -/
theorem C7_constructGoal_zero_one_many (st : ModelBasedPlanningContext) :
    (st.goal_constraints_ = [] → (constructGoal st).2 = none)
    ∧ (∀ k, st.goal_constraints_ = [k] → (constructGoal st).2 = some (GoalOb.sampler k))
    ∧ (2 ≤ st.goal_constraints_.length →
        (constructGoal st).2 = some (GoalOb.mux st.goal_constraints_)
        ∧ ∀ s, (GoalOb.mux st.goal_constraints_).isSatisfied s = true
            ↔ ∃ k ∈ st.goal_constraints_, ksetSatisfied k s = true) := by
  refine ⟨?_, ?_, ?_⟩
  · intro h
    simp [constructGoal, h]
  · intro k h
    simp [constructGoal, h]
  · intro h
    constructor
    · match hm : st.goal_constraints_ with
      | [] => rw [hm] at h; simp at h
      | [k] => rw [hm] at h; simp at h
      | k1 :: k2 :: rest => simp [constructGoal, hm]
    · intro s
      simp [GoalOb.isSatisfied, List.any_eq_true]

/-- A concrete context holding two goal-constraint sets. -/
def ctx7 : ModelBasedPlanningContext :=
  { ctxW with goal_constraints_ := [[cZ], [cA]] }

/-- Claim C7 witness: on a context with two stored sets, constructGoal
returns the mux union, and on state 1 the union is satisfied exactly when
one of the two member regions is (here the always-true one). -/
theorem C7_constructGoal_zero_one_many_witness :
    (constructGoal ctx7).2 = some (GoalOb.mux [[cZ], [cA]])
    ∧ ((GoalOb.mux [[cZ], [cA]]).isSatisfied 1 = true
        ↔ ∃ k ∈ [[cZ], [cA]], ksetSatisfied k 1 = true) :=
  ⟨((C7_constructGoal_zero_one_many ctx7).2.2 (by decide)).1,
   ((C7_constructGoal_zero_one_many ctx7).2.2 (by decide)).2 1⟩

/-- The running AND over the round results of the full rounds, initialised
to true, is true exactly when every round result is true. -/
theorem foldl_and_range_eq_true (o : Nat → Bool) (n : Nat) :
    ((List.range n).foldl (fun acc i => acc && o i) true = true)
      ↔ ∀ i < n, o i = true := by
  induction n with
  | zero => simp
  | succ k ih =>
    rw [List.range_succ, List.foldl_append, List.foldl_cons, List.foldl_nil,
      Bool.and_eq_true, ih]
    constructor
    · rintro ⟨h1, h2⟩ i hi
      rcases Nat.lt_succ_iff_lt_or_eq.mp hi with hlt | heq
      · exact h1 i hlt
      · exact heq ▸ h2
    · intro hAll
      exact ⟨fun i hi => hAll i (Nat.lt_succ_of_lt hi), hAll k (Nat.lt_succ_self k)⟩

/-- Filtering the planning events out of a replicated parallel round keeps
every copy. -/
theorem filter_isSolve_replicate (n : Nat) (t : ℚ) (k : Nat) :
    (List.replicate n (Ev.parRound t k)).filter Ev.isSolve
      = List.replicate n (Ev.parRound t k) :=
  List.filter_eq_self.mpr (fun a ha => by rw [List.eq_of_mem_replicate ha]; rfl)

/-- Filtering the planning events out of a conditional non-planning
singleton yields nothing. -/
theorem filter_isSolve_ite_nil (c : Prop) [Decidable c] (e : Ev)
    (he : Ev.isSolve e = false) :
    (if c then [e] else []).filter Ev.isSolve = [] := by
  split
  · simp [List.filter_cons, he]
  · rfl

/-- Claim C3: for a count strictly above the positive thread limit, solve
runs exactly count div threads full parallel rounds of threads planners
each, followed by one partial round of count mod threads planners that is
skipped exactly when the remainder is zero; every round carries the same
undivided timeout, and the returned boolean is true exactly when every
round result is true (the logical AND over all rounds). -/
theorem C3_solve_oversized_rounds (st : ModelBasedPlanningContext)
    (oracle : Nat → Bool) (timeout : ℚ) (count : Nat) (g : GoalOb)
    (hg : st.problemGoal_ = some g)
    (h1 : 0 < st.max_planning_threads_)
    (h2 : st.max_planning_threads_ < count) :
    ∃ st2 r tr, solve st oracle timeout count = some (st2, r, tr)
    ∧ tr.filter Ev.isSolve
        = List.replicate (count / st.max_planning_threads_)
            (Ev.parRound timeout st.max_planning_threads_)
          ++ (if count % st.max_planning_threads_ ≠ 0
              then [Ev.parRound timeout (count % st.max_planning_threads_)] else [])
    ∧ (r = true ↔ ∀ i < count / st.max_planning_threads_
          + (if count % st.max_planning_threads_ ≠ 0 then 1 else 0), oracle i = true) := by
  have hc1 : ¬ count ≤ 1 := by omega
  have hct : ¬ count ≤ st.max_planning_threads_ := by omega
  refine ⟨st, (solveDispatch oracle timeout count st.max_planning_threads_).1,
    Ev.clearSolutionPaths ::
      ((if st.planner_ then [Ev.plannerClear] else []) ++
       (if GoalOb.hasLazySamplesType g then [Ev.startSampling] else []) ++
       (Ev.fixInputStates ::
         (solveDispatch oracle timeout count st.max_planning_threads_).2) ++
       (if GoalOb.hasLazySamplesType g then [Ev.stopSampling] else [])), ?_, ?_, ?_⟩
  · rw [solve, hg]
  · rw [List.filter_cons]
    have : Ev.isSolve Ev.clearSolutionPaths = false := rfl
    rw [this]
    simp only [List.filter_append, List.filter_cons]
    rw [filter_isSolve_ite_nil _ Ev.plannerClear rfl,
      filter_isSolve_ite_nil _ Ev.startSampling rfl,
      filter_isSolve_ite_nil _ Ev.stopSampling rfl]
    have hfix : Ev.isSolve Ev.fixInputStates = false := rfl
    rw [hfix]
    simp only [List.nil_append, List.append_nil, Bool.false_eq_true, if_false]
    rw [solveDispatch, if_neg hc1, if_neg hct]
    by_cases hm : count % st.max_planning_threads_ ≠ 0
    · rw [if_pos hm, if_pos hm]
      simp only [List.filter_append, filter_isSolve_replicate]
      rfl
    · rw [if_neg hm, if_neg hm]
      simp only [List.append_nil]
      exact filter_isSolve_replicate _ _ _
  · rw [solveDispatch, if_neg hc1, if_neg hct]
    by_cases hm : count % st.max_planning_threads_ ≠ 0
    · rw [if_pos hm, if_pos hm]
      simp only [Bool.and_eq_true, foldl_and_range_eq_true]
      constructor
      · rintro ⟨hAll, hLast⟩ i hi
        rcases Nat.lt_succ_iff_lt_or_eq.mp (by omega : i < count / st.max_planning_threads_ + 1)
          with hlt | heq
        · exact hAll i hlt
        · exact heq ▸ hLast
      · intro hAll
        exact ⟨fun i hi => hAll i (by omega), hAll _ (by omega)⟩
    · rw [if_neg hm, if_neg hm]
      simp only [foldl_and_range_eq_true, Nat.add_zero]

/-- A concrete context with an installed mux goal and two planning
threads. -/
def ctx3 : ModelBasedPlanningContext :=
  { ctxW with problemGoal_ := some (GoalOb.mux [[cZ], [cA]]) }

/-- Claim C3 witness: count 5 against thread limit 2 on a context with an
installed goal: both hypotheses hold and the round structure is exactly
5 div 2 full rounds of 2 planners plus a partial round of 5 mod 2 = 1
planner, with conjunction semantics over the all-true oracle. -/
theorem C3_solve_oversized_rounds_witness :
    0 < ctx3.max_planning_threads_ ∧ ctx3.max_planning_threads_ < 5
    ∧ (∃ st2 r tr, solve ctx3 (fun _ => true) 1 5 = some (st2, r, tr)
       ∧ tr.filter Ev.isSolve
           = List.replicate (5 / ctx3.max_planning_threads_)
               (Ev.parRound 1 ctx3.max_planning_threads_)
             ++ (if 5 % ctx3.max_planning_threads_ ≠ 0
                 then [Ev.parRound 1 (5 % ctx3.max_planning_threads_)] else [])
       ∧ (r = true ↔ ∀ i < 5 / ctx3.max_planning_threads_
             + (if 5 % ctx3.max_planning_threads_ ≠ 0 then 1 else 0),
             (fun _ => true : Nat → Bool) i = true)) :=
  ⟨by decide, by decide,
    C3_solve_oversized_rounds ctx3 (fun _ => true) 1 5 (GoalOb.mux [[cZ], [cA]]) rfl
      (by decide) (by decide)⟩

/-- Claim C8: when the installed goal has the lazy-samples type, solve
emits startSampling before any planning event (no planning event precedes
it) and stopSampling as the very last event of the invocation, for every
count, timeout and oracle outcome, sequential or parallel; solve therefore
never returns with background goal sampling left running. -/
theorem C8_solve_lazy_sampling_bracketed (st : ModelBasedPlanningContext)
    (oracle : Nat → Bool) (timeout : ℚ) (count : Nat) (g : GoalOb)
    (hg : st.problemGoal_ = some g) (hl : GoalOb.hasLazySamplesType g = true) :
    ∃ st2 r pre mid,
      solve st oracle timeout count
        = some (st2, r, pre ++ Ev.startSampling :: (mid ++ [Ev.stopSampling]))
      ∧ (∀ e ∈ pre, Ev.isSolve e = false) := by
  refine ⟨st, (solveDispatch oracle timeout count st.max_planning_threads_).1,
    Ev.clearSolutionPaths :: (if st.planner_ then [Ev.plannerClear] else []),
    Ev.fixInputStates :: (solveDispatch oracle timeout count st.max_planning_threads_).2,
    ?_, ?_⟩
  · rw [solve, hg]
    simp [hl, List.append_assoc]
  · intro e he
    rcases List.mem_cons.mp he with rfl | he2
    · rfl
    · by_cases hp : st.planner_
      · rw [if_pos hp] at he2
        rcases List.mem_singleton.mp he2 with rfl
        rfl
      · rw [if_neg hp] at he2
        simp at he2

/-- Claim C8 witness: the bracketing applied to a concrete context whose
installed goal is a single lazy-samples region, with a failing oracle at
count 3 — sampling is still started before and stopped after planning. -/
theorem C8_solve_lazy_sampling_bracketed_witness :
    ∃ st2 r pre mid,
      solve ctx10 (fun _ => false) 1 3 = some (st2, r, pre ++ Ev.startSampling ::
        (mid ++ [Ev.stopSampling]))
      ∧ (∀ e ∈ pre, Ev.isSolve e = false) :=
  C8_solve_lazy_sampling_bracketed ctx10 (fun _ => false) 1 3 (GoalOb.sampler [cA]) rfl rfl

/-- Claim C9: the first action of solve dereferences the installed goal
with no null guard, so the call is defined exactly when a goal is
installed: it fails precisely on a null goal, it fails immediately after
clear, and a successful setPlanningConstraints installs a goal that makes
the dereference safe. -/
theorem C9_solve_requires_goal (st : ModelBasedPlanningContext) (oracle : Nat → Bool)
    (timeout : ℚ) (count : Nat) :
    (solve st oracle timeout count = none ↔ st.problemGoal_ = none)
    ∧ solve (clear st) oracle timeout count = none
    ∧ (∀ gcs pcs error, (setPlanningConstraints st gcs pcs error).2.1 = true →
        (solve (setPlanningConstraints st gcs pcs error).1 oracle timeout count).isSome
          = true) := by
  refine ⟨?_, ?_, ?_⟩
  · cases h : st.problemGoal_ with
    | none => simp [solve, h]
    | some g => simp [solve, h]
  · simp [solve, clear]
  · intro gcs pcs error htrue
    rcases hm : (gcs.map (fun gc => mergeConstraints gc pcs)).filter (fun k => !k.isEmpty)
      with _ | ⟨k, rest⟩
    · rw [setPlanningConstraints] at htrue
      simp [hm] at htrue
    · cases rest with
      | nil =>
        rw [setPlanningConstraints]
        simp [hm, constructGoal, solve]
      | cons k2 rest2 =>
        rw [setPlanningConstraints]
        simp [hm, constructGoal, solve]

/-- Claim C9 witness: on the concrete base context, solve after clear fails
on the null-goal dereference, and solve after a successful
setPlanningConstraints is defined. -/
theorem C9_solve_requires_goal_witness :
    solve (clear ctxW) (fun _ => true) 1 1 = none
    ∧ (solve (setPlanningConstraints ctxW [[cA]] [] none).1 (fun _ => true) 1 1).isSome
        = true :=
  ⟨(C9_solve_requires_goal ctxW (fun _ => true) 1 1).2.1,
   (C9_solve_requires_goal ctxW (fun _ => true) 1 1).2.2 [[cA]] [] none rfl⟩
